import Mathlib

/-!
Verification of `grelu.data.utils`: a shallow embedding in Lean 4 of the four
utility functions in `src/grelu/data/utils.py` (`_check_multiclass`,
`_create_task_data`, `get_chromosomes`, `_tile_positions`), together with
theorems settling the specification claims about them.

Modelling conventions:
* Python `int` is `Int`; `range(start, stop, step)` is `pythonRange`, defined
  by its closed form (length `max 0 ⌈(stop-start)/step⌉`, elements
  `start + step*i`), matching CPython semantics for any nonzero step.
* `int(np.floor(seq_len / 2 - protect_center / 2))` is floor division
  `(seq_len - protect_center).fdiv 2` (the float expression is exact real
  arithmetic at these magnitudes, and its floor is the integer floor).
* Fallible behaviour is made explicit with `Except String`:
  `range` with step 0 raises `ValueError` in Python, and evaluating the
  distances comprehension over a nonempty list with `protect_center = None`
  raises a `NameError` (`protect_start` is unbound); over an empty list the
  comprehension body never runs, so the call succeeds.
* pandas DataFrames are reduced to the fields the code inspects: the column
  dtypes for `_check_multiclass`, the row index (and absence of columns) for
  `_create_task_data`.
-/

/-- Length of Python `range(start, stop, step)` for `step ≠ 0`:
`max 0 ⌈(stop-start)/step⌉`, written with floor division. -/
def pyRangeLen (start stop step : Int) : Nat :=
  if 0 < step then ((stop - start + step - 1).fdiv step).toNat
  else ((start - stop - step - 1).fdiv (-step)).toNat

/-- Python `range(start, stop, step)` as a list, for `step ≠ 0`. -/
def pythonRange (start stop step : Int) : List Int :=
  (List.range (pyRangeLen start stop step)).map
    (fun i : Nat => start + step * (i : Int))

/-- `protect_start = int(np.floor(seq_len / 2 - protect_center / 2))`:
the floor of `(seq_len - protect_center) / 2`. -/
def protectStart (seq_len pc : Int) : Int := (seq_len - pc).fdiv 2

/-- The excluded start positions: Python `range(excl_start, protect_end)`
with `excl_start = protect_start - tile_len + 1` and
`protect_end = protect_start + protect_center`, or `[]` with no center. -/
def exclList (seq_len tile_len : Int) : Option Int → List Int
  | some pc =>
      pythonRange (protectStart seq_len pc - tile_len + 1)
        (protectStart seq_len pc + pc) 1
  | none => []

/-- Error message of Python `range` with zero step. -/
def zeroStepMsg : String := "ValueError: range arg 3 must not be zero"

/-- Error message of referencing the unbound `protect_start`. -/
def nameErrorMsg : String := "NameError: name protect_start is not defined"

/-- The comprehension
`[x for x in range(0, max_pos, stride) if x not in excl]` with
`max_pos = seq_len - tile_len + 1`. -/
def tilePosList (seq_len tile_len stride : Int) (pc : Option Int) :
    List Int :=
  (pythonRange 0 (seq_len - tile_len + 1) stride).filter
    (fun x => decide (x ∉ exclList seq_len tile_len pc))

/-- Shallow embedding of `_tile_positions`.  Returns the position list and,
when `return_distances`, also the distance list.  The two Python failure
modes are explicit `Except.error`s: `stride = 0` (ValueError inside `range`)
and evaluating distances over a nonempty list without a protect center
(NameError on `protect_start`). -/
def _tile_positions (seq_len tile_len stride : Int)
    (protect_center : Option Int) (return_distances : Bool) :
    Except String (List Int × Option (List Int)) :=
  if stride = 0 then Except.error zeroStepMsg else
  let positions := tilePosList seq_len tile_len stride protect_center
  if return_distances then
    match protect_center with
    | some pc =>
        Except.ok (positions,
          some (positions.map (fun x => x - protectStart seq_len pc)))
    | none =>
        if positions.isEmpty then Except.ok (positions, some [])
        else Except.error nameErrorMsg
  else Except.ok (positions, none)

/-- Column dtypes a pandas column can carry, as far as the code inspects
them: `is_string_dtype`, `is_categorical_dtype`, or anything else. -/
inductive Dtype where
  | string
  | categorical
  | numeric
  | other
deriving DecidableEq

/-- pandas `is_string_dtype` on a column's dtype tag. -/
def is_string_dtype (d : Dtype) : Bool :=
  match d with
  | Dtype.string => true
  | _ => false

/-- pandas `is_categorical_dtype` on a column's dtype tag. -/
def is_categorical_dtype (d : Dtype) : Bool :=
  match d with
  | Dtype.categorical => true
  | _ => false

/-- A label table, reduced to the list of its columns' dtypes
(`df.shape[1]` is the list length, `df.iloc[:, 0]` the head). -/
structure LabelDF where
  col_dtypes : List Dtype

/-- Shallow embedding of `_check_multiclass`:
`df.shape[1] == 1 and (is_string_dtype(col0) or is_categorical_dtype(col0))`.
Python `and` short-circuits, so the first column is only inspected when the
column count is 1 (the `headD` default is never reached in that case). -/
def _check_multiclass (df : LabelDF) : Bool :=
  decide (df.col_dtypes.length = 1) &&
    (is_string_dtype (df.col_dtypes.headD Dtype.other) ||
      is_categorical_dtype (df.col_dtypes.headD Dtype.other))

/-- An empty DataFrame with only a row index: `pd.DataFrame(index=...)`.
`columns` records the column names; the constructor produces none. -/
structure TaskDF where
  index : List String
  columns : List String

/-- Shallow embedding of `_create_task_data`:
`assert len(set(task_names)) == len(task_names)` then
`pd.DataFrame(index=task_names)`. -/
def _create_task_data (task_names : List String) :
    Except String TaskDF :=
  if task_names.toFinset.card = task_names.length then
    Except.ok { index := task_names, columns := [] }
  else Except.error "Task names are not unique"

/-- A value that is either a single string or a list of strings
(Python `Union[str, List[str]]`). -/
inductive StrOrList where
  | str : String → StrOrList
  | list : List String → StrOrList
deriving DecidableEq

/-- `["chr" + str(x) for x in range(1, 23)]`. -/
def autosomeNames : List String :=
  (pythonRange 1 23 1).map (fun x => "chr" ++ toString x)

/-- Shallow embedding of `get_chromosomes`: expand a shortcut string via the
`chrom_shortcuts` dict, otherwise return the input unchanged. -/
def get_chromosomes (chroms : StrOrList) : StrOrList :=
  match chroms with
  | StrOrList.str s =>
      if s = "autosomes" then StrOrList.list autosomeNames
      else if s = "autosomesX" then StrOrList.list (autosomeNames ++ ["chrX"])
      else if s = "autosomesXY" then
        StrOrList.list (autosomeNames ++ ["chrX", "chrY"])
      else StrOrList.str s
  | StrOrList.list l => StrOrList.list l

lemma mem_pythonRange {a b s x : Int} :
    x ∈ pythonRange a b s ↔
      ∃ i : Nat, i < pyRangeLen a b s ∧ a + s * i = x := by
  simp [pythonRange, List.mem_map, List.mem_range]

lemma pyRangeLen_pos_bound {a b s : Int} (hs : 1 ≤ s) {i : Nat}
    (hi : i < pyRangeLen a b s) : a + s * i < b := by
  have hs0 : (0 : Int) < s := by omega
  rw [pyRangeLen, if_pos hs0, Int.fdiv_eq_ediv _ (le_of_lt hs0)] at hi
  set n := b - a + s - 1 with hn
  set q := n / s with hq
  have hiq : (i : Int) < q := by omega
  have hqs : s * q + n % s = n := Int.ediv_add_emod n s
  have hr : 0 ≤ n % s := Int.emod_nonneg n (by omega)
  have h1 : s * ((i : Int) + 1) ≤ s * q :=
    mul_le_mul_of_nonneg_left (by omega) (le_of_lt hs0)
  have h2 : s * ((i : Int) + 1) = s * i + s := by ring
  linarith

lemma pyRangeLen_eq_zero {a b s : Int} (hs : 1 ≤ s) (hba : b ≤ a) :
    pyRangeLen a b s = 0 := by
  rw [pyRangeLen, if_pos (by omega), Int.fdiv_eq_ediv _ (by omega)]
  set n := b - a + s - 1 with hn
  set q := n / s with hq
  have hqs : s * q + n % s = n := Int.ediv_add_emod n s
  have hr : 0 ≤ n % s := Int.emod_nonneg n (by omega)
  have hq0 : q ≤ 0 := by
    by_contra h
    push_neg at h
    have h1 : s * 1 ≤ s * q := mul_le_mul_of_nonneg_left (by omega) (by omega)
    rw [mul_one] at h1
    linarith
  omega

lemma pythonRange_empty {a b s : Int} (hs : 1 ≤ s) (hba : b ≤ a) :
    pythonRange a b s = [] := by
  rw [pythonRange, pyRangeLen_eq_zero hs hba, List.range_zero, List.map_nil]

lemma mem_pythonRange_one {a b x : Int} :
    x ∈ pythonRange a b 1 ↔ a ≤ x ∧ x < b := by
  rw [mem_pythonRange]
  constructor
  · rintro ⟨i, hi, rfl⟩
    exact ⟨by omega, pyRangeLen_pos_bound le_rfl hi⟩
  · rintro ⟨h1, h2⟩
    refine ⟨(x - a).toNat, ?_, by omega⟩
    rw [pyRangeLen, if_pos (by omega), Int.fdiv_eq_ediv _ (by omega)]
    have h3 : b - a + 1 - 1 = b - a := by ring
    rw [h3, Int.ediv_one]
    omega

lemma pythonRange_sorted {a b s : Int} (hs : 1 ≤ s) :
    (pythonRange a b s).Sorted (· < ·) := by
  unfold pythonRange
  refine List.Pairwise.map _ ?_ (List.pairwise_lt_range _)
  intro x y hxy
  have hc : (x : Int) < y := by exact_mod_cast hxy
  have := mul_lt_mul_of_pos_left hc (show (0 : Int) < s by omega)
  linarith

lemma tile_stride_zero (seq_len tile_len : Int) (pc : Option Int)
    (rd : Bool) :
    _tile_positions seq_len tile_len 0 pc rd = Except.error zeroStepMsg := by
  unfold _tile_positions
  rw [if_pos rfl]

lemma tile_rd_false (seq_len tile_len stride : Int) (pc : Option Int)
    (h0 : stride ≠ 0) :
    _tile_positions seq_len tile_len stride pc false =
      Except.ok (tilePosList seq_len tile_len stride pc, none) := by
  unfold _tile_positions
  rw [if_neg h0]
  rfl

lemma tile_some_true (seq_len tile_len stride c : Int) (h0 : stride ≠ 0) :
    _tile_positions seq_len tile_len stride (some c) true =
      Except.ok (tilePosList seq_len tile_len stride (some c),
        some ((tilePosList seq_len tile_len stride (some c)).map
          (fun x => x - protectStart seq_len c))) := by
  unfold _tile_positions
  rw [if_neg h0]
  rfl

lemma tile_none_true (seq_len tile_len stride : Int) (h0 : stride ≠ 0) :
    _tile_positions seq_len tile_len stride none true =
      (if (tilePosList seq_len tile_len stride none).isEmpty then
        Except.ok (tilePosList seq_len tile_len stride none, some [])
      else Except.error nameErrorMsg) := by
  unfold _tile_positions
  rw [if_neg h0]
  rfl

lemma tile_positions_ok {seq_len tile_len stride : Int} {pc : Option Int}
    {rd : Bool} {ps : List Int} {d : Option (List Int)}
    (hok : _tile_positions seq_len tile_len stride pc rd =
      Except.ok (ps, d)) :
    ps = tilePosList seq_len tile_len stride pc := by
  by_cases h0 : stride = 0
  · subst h0
    rw [tile_stride_zero] at hok
    exact absurd hok (by simp)
  · cases rd
    · rw [tile_rd_false _ _ _ _ h0] at hok
      simp only [Except.ok.injEq, Prod.mk.injEq] at hok
      exact hok.1.symm
    · cases pc with
      | some c =>
          rw [tile_some_true _ _ _ _ h0] at hok
          simp only [Except.ok.injEq, Prod.mk.injEq] at hok
          exact hok.1.symm
      | none =>
          rw [tile_none_true _ _ _ h0] at hok
          by_cases he : (tilePosList seq_len tile_len stride none).isEmpty
          · rw [if_pos he] at hok
            simp only [Except.ok.injEq, Prod.mk.injEq] at hok
            exact hok.1.symm
          · rw [if_neg he] at hok
            exact absurd hok (by simp)

lemma tile_positions_ok_dist {seq_len tile_len stride c : Int}
    {ps ds : List Int}
    (hok : _tile_positions seq_len tile_len stride (some c) true =
      Except.ok (ps, some ds)) :
    ds = ps.map (fun x => x - protectStart seq_len c) := by
  by_cases h0 : stride = 0
  · subst h0
    rw [tile_stride_zero] at hok
    exact absurd hok (by simp)
  · rw [tile_some_true _ _ _ _ h0] at hok
    simp only [Except.ok.injEq, Prod.mk.injEq, Option.some.injEq] at hok
    rw [← hok.1]
    exact hok.2.symm

/-- C1: for valid arguments (`seq_len ≥ 0`, `tile_len ≥ 1`, `stride ≥ 1`),
every position `p` returned by `_tile_positions` satisfies `0 ≤ p`,
`p < seq_len - tile_len + 1` (hence `p + tile_len ≤ seq_len`),
`p % stride = 0`, and, when a protect center is given, `p` lies outside
the exclusion range `[protect_start - tile_len + 1, protect_end)`;
the position list is strictly ascending. -/
theorem c1_tile_positions_bounds (seq_len tile_len stride : Int)
    (pc : Option Int) (rd : Bool)
    (hseq : 0 ≤ seq_len) (htile : 1 ≤ tile_len) (hstr : 1 ≤ stride)
    (ps : List Int) (d : Option (List Int))
    (hok : _tile_positions seq_len tile_len stride pc rd =
      Except.ok (ps, d)) :
    (∀ p ∈ ps, 0 ≤ p ∧ p < seq_len - tile_len + 1 ∧
      p + tile_len ≤ seq_len ∧ p % stride = 0 ∧
      ∀ c, pc = some c →
        ¬ (protectStart seq_len c - tile_len + 1 ≤ p ∧
            p < protectStart seq_len c + c)) ∧
    ps.Sorted (· < ·) := by
  have hps := tile_positions_ok hok
  subst hps
  constructor
  · intro p hp
    simp only [tilePosList] at hp
    rw [List.mem_filter] at hp
    obtain ⟨hmem, hdec⟩ := hp
    rw [mem_pythonRange] at hmem
    obtain ⟨i, hi, hpi⟩ := hmem
    have hub : (0 : Int) + stride * i < seq_len - tile_len + 1 :=
      pyRangeLen_pos_bound hstr hi
    have hnn : (0 : Int) ≤ stride * i := mul_nonneg (by omega) (by omega)
    refine ⟨by omega, by omega, by omega, ?_, ?_⟩
    · rw [← hpi, zero_add, Int.mul_emod_right]
    · intro c hc hrange
      subst hc
      simp only [decide_eq_true_eq] at hdec
      exact hdec (by
        simp only [exclList]
        exact mem_pythonRange_one.mpr hrange)
  · simp only [tilePosList]
    exact List.Pairwise.filter _ (pythonRange_sorted hstr)

/-- C1 witness: the conclusion of `c1_tile_positions_bounds` at
`seq_len = 20`, `tile_len = 5`, `stride = 5`, no protect center,
where the returned positions are `[0, 5, 10, 15]`. -/
theorem c1_witness :
    (∀ p ∈ ([0, 5, 10, 15] : List Int), 0 ≤ p ∧ p < 20 - 5 + 1 ∧
      p + 5 ≤ 20 ∧ p % 5 = 0 ∧
      ∀ c, (none : Option Int) = some c →
        ¬ (protectStart 20 c - 5 + 1 ≤ p ∧ p < protectStart 20 c + c)) ∧
    ([0, 5, 10, 15] : List Int).Sorted (· < ·) :=
  c1_tile_positions_bounds 20 5 5 none false (by decide) (by decide)
    (by decide) [0, 5, 10, 15] none (by rfl)

/-- C2: `_tile_positions(seq_len=20, tile_len=5, stride=1,
protect_center=4)` returns exactly `[0, 1, 2, 3, 12, 13, 14, 15]`, with
`protect_start = 8`, `protect_end = 12`, and exclusion range `[4, 12)`. -/
theorem c2_tile_positions_example :
    _tile_positions 20 5 1 (some 4) false =
      Except.ok ([0, 1, 2, 3, 12, 13, 14, 15], none) ∧
    protectStart 20 4 = 8 ∧
    exclList 20 5 (some 4) = pythonRange 4 12 1 ∧
    pythonRange 4 12 1 = [4, 5, 6, 7, 8, 9, 10, 11] := by
  refine ⟨by rfl, by rfl, by rfl, by rfl⟩

/-- C3: when `_tile_positions` is called with a protect center and
`return_distances`, the distance list has the same length as the position
list and `distance[i] = position[i] - protect_start` for every index. -/
theorem c3_tile_distances_aligned (seq_len tile_len stride c : Int)
    (ps ds : List Int)
    (hok : _tile_positions seq_len tile_len stride (some c) true =
      Except.ok (ps, some ds)) :
    ds.length = ps.length ∧
    ∀ i (hd : i < ds.length) (hp : i < ps.length),
      ds.get ⟨i, hd⟩ = ps.get ⟨i, hp⟩ - protectStart seq_len c := by
  have h := tile_positions_ok_dist hok
  subst h
  refine ⟨by simp, ?_⟩
  intro i hd hp
  simp [List.get_eq_getElem, List.getElem_map]

/-- C3 witness: the conclusion of `c3_tile_distances_aligned` at
`seq_len = 20`, `tile_len = 5`, `stride = 1`, `protect_center = 4`, where
positions are `[0, 1, 2, 3, 12, 13, 14, 15]` and distances
`[-8, -7, -6, -5, 4, 5, 6, 7]`. -/
theorem c3_witness :
    ([-8, -7, -6, -5, 4, 5, 6, 7] : List Int).length =
      ([0, 1, 2, 3, 12, 13, 14, 15] : List Int).length ∧
    ∀ i (hd : i < ([-8, -7, -6, -5, 4, 5, 6, 7] : List Int).length)
      (hp : i < ([0, 1, 2, 3, 12, 13, 14, 15] : List Int).length),
      ([-8, -7, -6, -5, 4, 5, 6, 7] : List Int).get ⟨i, hd⟩ =
        ([0, 1, 2, 3, 12, 13, 14, 15] : List Int).get ⟨i, hp⟩ -
          protectStart 20 4 :=
  c3_tile_distances_aligned 20 5 1 4 [0, 1, 2, 3, 12, 13, 14, 15]
    [-8, -7, -6, -5, 4, 5, 6, 7] (by rfl)

/-- C4 counterexample: `_tile_positions(3, 5, 1, protect_center=None,
return_distances=True)` is NOT rejected: the candidate list is empty, the
comprehension body never evaluates the unbound `protect_start`, and the
call returns empty positions and distances. -/
theorem c4_counterexample :
    _tile_positions 3 5 1 none true = Except.ok ([], some []) := by rfl

/-- C4 amended: with `return_distances` and no `protect_center`, the call
fails (NameError on the unbound `protect_start`) exactly when the position
list is nonempty; when it is empty the comprehension body never runs and
the call returns empty positions and empty distances. -/
theorem c4_amended_distances_without_center
    (seq_len tile_len stride : Int) (h0 : stride ≠ 0) :
    (tilePosList seq_len tile_len stride none ≠ [] →
      _tile_positions seq_len tile_len stride none true =
        Except.error nameErrorMsg) ∧
    (tilePosList seq_len tile_len stride none = [] →
      _tile_positions seq_len tile_len stride none true =
        Except.ok ([], some [])) := by
  rw [tile_none_true _ _ _ h0]
  constructor
  · intro h
    rw [if_neg (by simpa [List.isEmpty_iff] using h)]
  · intro h
    rw [if_pos (by simpa [List.isEmpty_iff] using h), h]

/-- C4 witness: `c4_amended_distances_without_center` at two concrete
inputs, a nonempty one that fails and an empty one that succeeds. -/
theorem c4_witness :
    _tile_positions 20 5 1 none true = Except.error nameErrorMsg ∧
    _tile_positions 3 5 1 none true = Except.ok ([], some []) :=
  ⟨(c4_amended_distances_without_center 20 5 1 (by decide)).1 (by decide),
    (c4_amended_distances_without_center 3 5 1 (by decide)).2 (by decide)⟩

/-- C5 counterexample: `tile_len = 0` is not rejected:
`_tile_positions(3, 0, 1)` returns `[0, 1, 2, 3]` without error. -/
theorem c5_counterexample :
    _tile_positions 3 0 1 none false = Except.ok ([0, 1, 2, 3], none) := by
  rfl

/-- C5 amended: the code does not validate its arguments. `stride = 0` is
the only rejected case (a ValueError raised inside `range`); a negative
stride, a non-positive `tile_len`, and a negative `seq_len` are all
accepted and return a position list without error. -/
theorem c5_amended_invalid_args_permissive (seq_len tile_len stride : Int) :
    (stride = 0 → ∀ (pc : Option Int) (rd : Bool),
      _tile_positions seq_len tile_len stride pc rd =
        Except.error zeroStepMsg) ∧
    (stride ≠ 0 → ∀ pc : Option Int,
      _tile_positions seq_len tile_len stride pc false =
        Except.ok (tilePosList seq_len tile_len stride pc, none)) := by
  constructor
  · rintro rfl pc rd
    exact tile_stride_zero _ _ _ _
  · intro h0 pc
    exact tile_rd_false _ _ _ _ h0

/-- C5 witness: `c5_amended_invalid_args_permissive` at concrete inputs:
zero stride errors; negative stride with `tile_len = 0` and
`seq_len = -2` succeeds. -/
theorem c5_witness :
    _tile_positions 3 0 0 none false = Except.error zeroStepMsg ∧
    _tile_positions (-2) 0 (-1) none false =
      Except.ok (tilePosList (-2) 0 (-1) none, none) :=
  ⟨(c5_amended_invalid_args_permissive 3 0 0).1 rfl none false,
    (c5_amended_invalid_args_permissive (-2) 0 (-1)).2 (by decide) none⟩

/-- C6: `_create_task_data` fails exactly when the name list contains a
duplicate (`len(set(names)) < len(names)`); otherwise it returns a frame
with no columns whose row index is exactly the input list, in order. -/
theorem c6_create_task_data (task_names : List String) :
    ((∃ e, _create_task_data task_names = Except.error e) ↔
      task_names.toFinset.card < task_names.length) ∧
    (task_names.toFinset.card = task_names.length →
      _create_task_data task_names =
        Except.ok { index := task_names, columns := [] }) := by
  have hle : task_names.toFinset.card ≤ task_names.length := by
    rw [List.card_toFinset]
    exact List.Sublist.length_le (List.dedup_sublist _)
  constructor
  · constructor
    · rintro ⟨e, he⟩
      simp only [_create_task_data] at he
      by_cases h : task_names.toFinset.card = task_names.length
      · rw [if_pos h] at he
        exact absurd he (by simp)
      · omega
    · intro hlt
      refine ⟨"Task names are not unique", ?_⟩
      simp only [_create_task_data]
      rw [if_neg (by omega)]
  · intro h
    simp only [_create_task_data]
    rw [if_pos h]

/-- C6 witness: `c6_create_task_data` at the spec's two examples:
`["a", "b", "a"]` fails, `["a", "b", "c"]` yields index exactly
`["a", "b", "c"]`. -/
theorem c6_witness :
    (∃ e, _create_task_data ["a", "b", "a"] = Except.error e) ∧
    _create_task_data ["a", "b", "c"] =
      Except.ok { index := ["a", "b", "c"], columns := [] } :=
  ⟨(c6_create_task_data ["a", "b", "a"]).1.mpr (by decide),
    (c6_create_task_data ["a", "b", "c"]).2 (by decide)⟩

/-- C7: `get_chromosomes` maps `"autosomes"` to exactly `chr1..chr22` in
numeric order with no zero-padding, `"autosomesX"` to that list plus
`chrX`, `"autosomesXY"` to that list plus `chrX, chrY` (24 entries);
any other string, and any list, are returned unchanged. -/
theorem c7_get_chromosomes :
    get_chromosomes (StrOrList.str "autosomes") =
      StrOrList.list ["chr1", "chr2", "chr3", "chr4", "chr5", "chr6",
        "chr7", "chr8", "chr9", "chr10", "chr11", "chr12", "chr13",
        "chr14", "chr15", "chr16", "chr17", "chr18", "chr19", "chr20",
        "chr21", "chr22"] ∧
    get_chromosomes (StrOrList.str "autosomesX") =
      StrOrList.list ["chr1", "chr2", "chr3", "chr4", "chr5", "chr6",
        "chr7", "chr8", "chr9", "chr10", "chr11", "chr12", "chr13",
        "chr14", "chr15", "chr16", "chr17", "chr18", "chr19", "chr20",
        "chr21", "chr22", "chrX"] ∧
    get_chromosomes (StrOrList.str "autosomesXY") =
      StrOrList.list ["chr1", "chr2", "chr3", "chr4", "chr5", "chr6",
        "chr7", "chr8", "chr9", "chr10", "chr11", "chr12", "chr13",
        "chr14", "chr15", "chr16", "chr17", "chr18", "chr19", "chr20",
        "chr21", "chr22", "chrX", "chrY"] ∧
    (∀ s : String, s ≠ "autosomes" → s ≠ "autosomesX" →
      s ≠ "autosomesXY" →
      get_chromosomes (StrOrList.str s) = StrOrList.str s) ∧
    (∀ l : List String,
      get_chromosomes (StrOrList.list l) = StrOrList.list l) := by
  refine ⟨by rfl, by rfl, by rfl, ?_, fun l => rfl⟩
  intro s h1 h2 h3
  simp only [get_chromosomes]
  rw [if_neg h1, if_neg h2, if_neg h3]

/-- C7 witness: the pass-through components of `c7_get_chromosomes` at a
non-shortcut string and at an explicit list. -/
theorem c7_witness :
    get_chromosomes (StrOrList.str "chr3") = StrOrList.str "chr3" ∧
    get_chromosomes (StrOrList.list ["chr3", "chr7"]) =
      StrOrList.list ["chr3", "chr7"] :=
  ⟨c7_get_chromosomes.2.2.2.1 "chr3" (by decide) (by decide) (by decide),
    c7_get_chromosomes.2.2.2.2 ["chr3", "chr7"]⟩

/-- C8: `_check_multiclass` returns `true` iff the table has exactly one
column and that column's dtype is string or categorical (so `true` on a
single string column, `false` on any two-column table, and `false` on a
single numeric column); it never fails. -/
theorem c8_check_multiclass (df : LabelDF) :
    _check_multiclass df = true ↔
      ∃ d, df.col_dtypes = [d] ∧
        (d = Dtype.string ∨ d = Dtype.categorical) := by
  cases df with
  | mk cols =>
    cases cols with
    | nil => simp [_check_multiclass]
    | cons d rest =>
      cases rest with
      | nil =>
          cases d <;>
            simp [_check_multiclass, is_string_dtype, is_categorical_dtype]
      | cons d2 rest2 => simp [_check_multiclass]

/-- C9: with `tile_len > seq_len` and a positive stride, `max_pos ≤ 0`
leaves no candidates: the call returns an empty position list without
error, and empty distances as well when requested with a protect center. -/
theorem c9_tile_positions_empty (seq_len tile_len stride c : Int)
    (pc : Option Int) (h : seq_len < tile_len) (hs : 1 ≤ stride) :
    _tile_positions seq_len tile_len stride pc false =
      Except.ok ([], none) ∧
    _tile_positions seq_len tile_len stride (some c) true =
      Except.ok ([], some []) := by
  have h0 : stride ≠ 0 := by omega
  have hempty : ∀ pc' : Option Int,
      tilePosList seq_len tile_len stride pc' = [] := by
    intro pc'
    simp only [tilePosList]
    rw [pythonRange_empty hs (by omega), List.filter_nil]
  constructor
  · rw [tile_rd_false _ _ _ _ h0, hempty]
  · rw [tile_some_true _ _ _ _ h0, hempty]
    simp

/-- C9 witness: `c9_tile_positions_empty` at `seq_len = 3`,
`tile_len = 5`, `stride = 1`, `protect_center = 2`. -/
theorem c9_witness :
    _tile_positions 3 5 1 none false = Except.ok ([], none) ∧
    _tile_positions 3 5 1 (some 2) true = Except.ok ([], some []) :=
  c9_tile_positions_empty 3 5 1 2 none (by decide) (by decide)

/-- C10: with `protect_center = 0` and `tile_len > 1`, positions in
`[protect_start - tile_len + 1, protect_start)` are still excluded from
the result, with `protect_start = floor(seq_len / 2)`, even though the
protected region `[protect_start, protect_start)` is empty. -/
theorem c10_protect_center_zero_excludes
    (seq_len tile_len stride x : Int) (rd : Bool)
    (htile : 1 < tile_len) (hs : 1 ≤ stride)
    (hx1 : protectStart seq_len 0 - tile_len + 1 ≤ x)
    (hx2 : x < protectStart seq_len 0)
    (ps : List Int) (d : Option (List Int))
    (hok : _tile_positions seq_len tile_len stride (some 0) rd =
      Except.ok (ps, d)) :
    x ∉ ps ∧ protectStart seq_len 0 = seq_len.fdiv 2 := by
  have hps := tile_positions_ok hok
  subst hps
  refine ⟨?_, by rw [protectStart, sub_zero]⟩
  intro hmem
  simp only [tilePosList, List.mem_filter, decide_eq_true_eq] at hmem
  exact hmem.2 (by
    simp only [exclList]
    exact mem_pythonRange_one.mpr ⟨hx1, by omega⟩)

/-- C10 witness: `c10_protect_center_zero_excludes` at `seq_len = 20`,
`tile_len = 5`, `stride = 1`, `x = 6`: position 6 is excluded although the
protected region `[10, 10)` is empty. -/
theorem c10_witness :
    6 ∉ ([0, 1, 2, 3, 4, 5, 10, 11, 12, 13, 14, 15] : List Int) ∧
      protectStart 20 0 = Int.fdiv 20 2 :=
  c10_protect_center_zero_excludes 20 5 1 6 false (by decide) (by decide)
    (by decide) (by decide)
    [0, 1, 2, 3, 4, 5, 10, 11, 12, 13, 14, 15] none (by rfl)
